import Mathlib

/-!
Shallow embedding of the parking-management-system backend
(src/backend/controllers/pmsfeature.js): user store, bcrypt contract,
JWT contract, the `protect` middleware and the route handlers
`registerUser`, `loginUser`, `updateUserProfile`, `processPayment`.

Conventions of the embedding:
* MongoDB documents become a Lean structure `StoredUser`; the collection is
  a `List StoredUser` processed in insertion order (matching `findOne`,
  which returns the first match).
* JavaScript string values that may be absent from a request body are
  `Option String`; JS truthiness of such a value (`undefined` and `""` are
  falsy) is `truthyS`.
* The bcryptjs library is modelled by its contract: a digest remembers the
  salt and the hashed plaintext, and `bcryptCompare` checks the plaintext
  against the digest ignoring the salt (per-call random salts never change
  the outcome of comparison).
* The jsonwebtoken library is modelled by its contract: a signed token is a
  structure carrying the payload id, issued-at, absolute expiry and the
  signing secret; verification demands the same secret (models the
  signature check, done first) and then that the clock is strictly before
  the expiry (jsonwebtoken reports `TokenExpiredError` when
  `clock >= exp`). The wire form of a token is a dot-separated string,
  decoded by `decodeToken`; a string that does not decode is a malformed
  token and fails verification, as does JS `undefined` (`none`).
* Time is a `Nat`: seconds for JWT clocks, milliseconds for `Date.now()`
  in the payment handler.
-/

namespace PMS

/-- JS truthiness of an optional string: `undefined` and the empty string
are falsy, every other string is truthy. -/
def truthyS : Option String → Bool
  | none => false
  | some s => !(s == "")

/-! ### bcryptjs model -/

/-- Model of a bcrypt digest: the salt used and the plaintext that was
hashed (standing in for the one-way image of that plaintext). -/
structure Digest where
  salt : Nat
  hashedOf : String
deriving DecidableEq, Repr

/-- Model of `bcrypt.hash(plain, salt)`. -/
def bcryptHash (plain : String) (salt : Nat) : Digest :=
  ⟨salt, plain⟩

/-- Model of `bcrypt.compare(plain, digest)`: true exactly when `plain` is
the plaintext the digest was computed from, whatever the salt was. -/
def bcryptCompare (plain : String) (d : Digest) : Bool :=
  plain == d.hashedOf

/-! ### jsonwebtoken model -/

/-- Model of a signed JWT: payload `{ id }`, issued-at, absolute expiry,
and the secret it was signed with (standing in for the signature). -/
structure Token where
  id : Nat
  iat : Nat
  exp : Nat
  secret : String
deriving DecidableEq, Repr

inductive JwtError where
  | invalid
  | expired
deriving DecidableEq, Repr

/-- Model of `jwt.sign({ id }, secret, { expiresIn })` at clock `now`. -/
def jwtSign (id : Nat) (secret : String) (expiresIn now : Nat) : Token :=
  ⟨id, now, now + expiresIn, secret⟩

/-- `generateToken` from the source: `jwt.sign({ id }, JWT_SECRET,
{ expiresIn: "1h" })`; one hour is 3600 seconds. -/
def generateToken (id : Nat) (secret : String) (now : Nat) : Token :=
  jwtSign id secret 3600 now

/-- Model of `jwt.verify` on an already-decoded token: the signature check
(same secret) comes first, then the expiry check; jsonwebtoken treats the
token as expired as soon as the clock reaches `exp`. -/
def jwtVerifyTok (t : Token) (secret : String) (now : Nat) : Except JwtError Nat :=
  if t.secret == secret then
    if now < t.exp then .ok t.id else .error .expired
  else .error .invalid

/-- Structural splitter on a separator character, mirroring JS
`String.prototype.split`: `"".split` gives `[""]`, separators at the ends
give empty segments. -/
def splitChAux (sep : Char) : List Char → List Char → List (List Char)
  | [], acc => [acc.reverse]
  | c :: rest, acc =>
    if c = sep then acc.reverse :: splitChAux sep rest []
    else splitChAux sep rest (c :: acc)

/-- JS `s.split(sep)` for a one-character separator. -/
def jsSplit (sep : Char) (s : String) : List String :=
  (splitChAux sep s.data []).map String.mk

/-- Decimal-digit parser used by the token decoder. -/
def parseNatAux : List Char → Nat → Option Nat
  | [], acc => some acc
  | c :: rest, acc =>
    if c.isDigit then parseNatAux rest (acc * 10 + (c.toNat - 48))
    else none

/-- Parse a nonempty all-digit string as a `Nat`. -/
def parseNat? (s : String) : Option Nat :=
  match s.data with
  | [] => none
  | l => parseNatAux l 0

/-- Model of the wire decoding inside `jwt.verify`: a token string is four
dot-separated segments `id.iat.exp.secret`; anything else is malformed. -/
def decodeToken (s : String) : Option Token :=
  match jsSplit '.' s with
  | [a, b, c, d] =>
    match parseNat? a, parseNat? b, parseNat? c with
    | some id, some iat, some exp => some ⟨id, iat, exp, d⟩
    | _, _, _ => none
  | _ => none

/-- Model of `jwt.verify(token, secret)` where `token : String | undefined`
(`none` models `undefined`, on which `jwt.verify` throws). -/
def jwtVerifyStr (tok : Option String) (secret : String) (now : Nat) : Except JwtError Nat :=
  match tok with
  | none => .error .invalid
  | some s =>
    match decodeToken s with
    | none => .error .invalid
    | some t => jwtVerifyTok t secret now

/-! ### HTTP responses -/

/-- The JSON bodies the handlers send. -/
inductive RespBody where
  | msg (message : String)
  | userTok (id : Nat) (username email : String) (token : Token)
  | profileTok (id : Nat) (username email : String)
      (firstName lastName phoneNumber : Option String) (token : Token)
  | payment (message transactionId amount status : String)
deriving DecidableEq, Repr

structure Resp where
  status : Nat
  body : RespBody
deriving DecidableEq, Repr

/-! ### User store -/

/-- A document of the `User` collection. The `password` field holds a
bcrypt digest once persisted. -/
structure StoredUser where
  id : Nat
  username : String
  email : String
  password : Digest
  firstName : Option String
  lastName : Option String
  phoneNumber : Option String
deriving DecidableEq, Repr

abbrev Store := List StoredUser

/-- `User.findOne({ email })`: first stored user with that email. -/
def findOneByEmail (s : Store) (e : String) : Option StoredUser :=
  s.find? (fun v => v.email == e)

/-- `User.findById(id)`: first stored user with that id. -/
def findById (s : Store) (uid : Nat) : Option StoredUser :=
  s.find? (fun v => v.id == uid)

/-- `User.create({ username, email, password })`: Mongoose runs the
`required` validators (an absent field is modelled as `""`, which fails
`required` for strings just as a missing field does), the pre-save hook
hashes the password, and the unique indexes on `email` and `username`
reject a duplicate with a duplicate-key error. Failures carry the
`error.message` the catch handler will send. -/
def createUser (s : Store) (username email password : String) (newId salt : Nat) :
    Except String (StoredUser × Store) :=
  if username == "" || email == "" || password == "" then
    .error "User validation failed"
  else if s.any (fun v => v.email == email || v.username == username) then
    .error "E11000 duplicate key error"
  else
    let u : StoredUser :=
      ⟨newId, username, email, bcryptHash password salt, none, none, none⟩
    .ok (u, s ++ [u])

/-- `user.save()` after a profile update: the unique indexes on `email` and
`username` reject the write when another document holds the same value;
otherwise the document with this id is replaced in place. -/
def saveUser (s : Store) (u : StoredUser) : Except String Store :=
  if s.any (fun v => !(v.id == u.id) && (v.email == u.email || v.username == u.username)) then
    .error "E11000 duplicate key error"
  else
    .ok (s.map (fun v => if v.id == u.id then u else v))

/-! ### Auth middleware `protect` -/

/-- Everything `protect` does to a request: the 401 responses it sends, in
order, whether it called `next()` (ran the handler), and the decoded user
id it attached to `req.user`. -/
structure ProtectOut where
  responses : List Resp
  nextCalled : Bool
  reqUser : Option Nat
deriving DecidableEq, Repr

/-- JS falsiness of the `token` variable at the final `if (!token)` check:
it is falsy when still `undefined` or when the split produced `""`. -/
def tokenFalsy : Option String → Bool
  | none => true
  | some s => s == ""

/-- The `protect` middleware. `auth` is the `Authorization` header
(`none` when absent). Mirrors the source line by line: the header must
exist and start with `"Bearer"`; `token` is `split(" ")[1]` (possibly
`undefined`); `jwt.verify` throwing lands in the catch branch which sends
401 "token failed"; after the try/catch (and after `next()` on success)
the trailing `if (!token)` sends 401 "no token" whenever `token` is still
falsy. -/
def protect (auth : Option String) (secret : String) (now : Nat) : ProtectOut :=
  match auth with
  | none =>
    ⟨[⟨401, .msg "Not authorized, no token"⟩], false, none⟩
  | some h =>
    if ("Bearer".data).isPrefixOf h.data then
      let token : Option String := (jsSplit ' ' h)[1]?
      match jwtVerifyStr token secret now with
      | .ok id =>
        ⟨if tokenFalsy token then [⟨401, .msg "Not authorized, no token"⟩] else [],
         true, some id⟩
      | .error _ =>
        ⟨⟨401, .msg "Not authorized, token failed"⟩ ::
           (if tokenFalsy token then [⟨401, .msg "Not authorized, no token"⟩] else []),
         false, none⟩
    else
      ⟨[⟨401, .msg "Not authorized, no token"⟩], false, none⟩

/-! ### Route handlers -/

/-- `registerUser`. `newId` is the server-generated `_id` of the would-be
document, `salt` the bcrypt salt drawn by the pre-save hook, `now` the
clock at token signing, `secret` the `JWT_SECRET`. An absent body field is
modelled as `""` (see `createUser`). -/
def registerUser (s : Store) (username email password : String)
    (newId salt now : Nat) (secret : String) : Resp × Store :=
  match findOneByEmail s email with
  | some _ => (⟨400, .msg "User already exists"⟩, s)
  | none =>
    match createUser s username email password newId salt with
    | .error m => (⟨500, .msg m⟩, s)
    | .ok (u, s2) =>
      (⟨201, .userTok u.id u.username u.email (generateToken u.id secret now)⟩, s2)

/-- `loginUser`: look the user up by email, compare the plaintext against
the stored digest; both a missing user and a failed comparison take the
same else-branch. Reading the store never changes it, so only the response
is returned. -/
def loginUser (s : Store) (email password : String) (now : Nat) (secret : String) : Resp :=
  match findOneByEmail s email with
  | some u =>
    if bcryptCompare password u.password then
      ⟨200, .userTok u.id u.username u.email (generateToken u.id secret now)⟩
    else
      ⟨401, .msg "Invalid email or password"⟩
  | none => ⟨401, .msg "Invalid email or password"⟩

/-- A profile-update request body; every field may be absent. -/
structure UpdateBody where
  username : Option String
  email : Option String
  firstName : Option String
  lastName : Option String
  phoneNumber : Option String
  password : Option String
deriving DecidableEq, Repr

/-- The five `user.x = req.body.x || user.x` assignments of
`updateUserProfile`. -/
def applyProfileFields (u : StoredUser) (b : UpdateBody) : StoredUser :=
  { u with
    username := if truthyS b.username then b.username.getD u.username else u.username,
    email := if truthyS b.email then b.email.getD u.email else u.email,
    firstName := if truthyS b.firstName then b.firstName else u.firstName,
    lastName := if truthyS b.lastName then b.lastName else u.lastName,
    phoneNumber := if truthyS b.phoneNumber then b.phoneNumber else u.phoneNumber }

/-- The in-memory document right before `user.save()`: the five field
assignments, then the password assignment guarded by `if
(req.body.password)`; the pre-save hook hashes exactly when that guard
fired, because only then is the password path modified. -/
def updatedUser (u : StoredUser) (b : UpdateBody) (salt : Nat) : StoredUser :=
  if truthyS b.password then
    { applyProfileFields u b with password := bcryptHash (b.password.getD "") salt }
  else applyProfileFields u b

/-- `updateUserProfile`: load by the id `protect` attached, overwrite each
truthy field, set the plaintext password only when `req.body.password` is
truthy (the pre-save hook then re-hashes), save, and answer with the
updated fields and a fresh token. -/
def updateUserProfile (s : Store) (uid : Nat) (b : UpdateBody)
    (salt now : Nat) (secret : String) : Resp × Store :=
  match findById s uid with
  | none => (⟨404, .msg "User not found"⟩, s)
  | some u =>
    match saveUser s (updatedUser u b salt) with
    | .error m => (⟨500, .msg m⟩, s)
    | .ok s2 =>
      (⟨200, .profileTok (updatedUser u b salt).id (updatedUser u b salt).username
          (updatedUser u b salt).email (updatedUser u b salt).firstName
          (updatedUser u b salt).lastName (updatedUser u b salt).phoneNumber
          (generateToken (updatedUser u b salt).id secret now)⟩, s2)

/-- A payment request body; every field may be absent. -/
structure PaymentBody where
  cardNumber : Option String
  expiryDate : Option String
  cvv : Option String
  cardHolderName : Option String
  amount : Option String
deriving DecidableEq, Repr

/-- JS number-to-decimal-string conversion used by the template literal
that builds the transaction id from `Date.now()`. -/
def natToDec (n : Nat) : String :=
  if n = 0 then "0"
  else String.mk (((Nat.digits 10 n).map Nat.digitChar).reverse)

/-- `processPayment`: presence check on the five fields (JS truthiness),
then a success payload whose transaction id is built from the current
millisecond clock. The handler never touches the user store; the store is
threaded through unchanged to make that explicit. -/
def processPayment (b : PaymentBody) (now : Nat) (s : Store) : Resp × Store :=
  if !(truthyS b.cardNumber && truthyS b.expiryDate && truthyS b.cvv &&
       truthyS b.cardHolderName && truthyS b.amount) then
    (⟨400, .msg "Missing payment details."⟩, s)
  else
    (⟨200, .payment "Payment processed successfully!" ("TXN_" ++ natToDec now)
        (b.amount.getD "") "completed"⟩, s)

/-! ### Sample data used by concrete instantiations -/

/-- A concrete stored user for concrete instantiations. -/
def alice : StoredUser :=
  ⟨1, "alice", "alice@x.com", bcryptHash "pw" 3, none, none, none⟩

/-- A one-user concrete store. -/
def store1 : Store := [alice]

/-- A complete concrete payment request. -/
def payBody : PaymentBody :=
  ⟨some "4111111111111111", some "12/26", some "123", some "Jo", some "50"⟩

/-! ### Decimal strings are injective (for transaction-id uniqueness) -/

/-- Injectivity of `Nat.digitChar` below 10, by enumeration. -/
theorem digitChar_injOn_lt :
    ∀ a, a < 10 → ∀ b, b < 10 → Nat.digitChar a = Nat.digitChar b → a = b := by
  decide

/-- Digit lists below 10 are determined by their character images. -/
theorem map_digitChar_inj : ∀ (l1 l2 : List Nat), (∀ x ∈ l1, x < 10) →
    (∀ x ∈ l2, x < 10) → l1.map Nat.digitChar = l2.map Nat.digitChar → l1 = l2
  | [], [], _, _, _ => rfl
  | [], _ :: _, _, _, h => by simp at h
  | _ :: _, [], _, _, h => by simp at h
  | a :: l1, b :: l2, h1, h2, h => by
    simp only [List.map_cons, List.cons.injEq] at h
    have hab : a = b :=
      digitChar_injOn_lt a (h1 a (by simp)) b (h2 b (by simp)) h.1
    have hrest : l1 = l2 :=
      map_digitChar_inj l1 l2 (fun x hx => h1 x (by simp [hx]))
        (fun x hx => h2 x (by simp [hx])) h.2
    rw [hab, hrest]

/-- A number whose base-10 digit list is `[0]` is zero. -/
theorem digits_single_zero {n : Nat} (h : Nat.digits 10 n = [0]) : n = 0 := by
  have h2 := Nat.ofDigits_digits 10 n
  rw [h] at h2
  simpa [Nat.ofDigits] using h2.symm

/-- Only zero prints as the string `"0"`. -/
theorem natToDec_eq_zero_str {n : Nat} (h : natToDec n = "0") : n = 0 := by
  by_cases hn : n = 0
  · exact hn
  · exfalso
    rw [natToDec, if_neg hn] at h
    have hd : (((Nat.digits 10 n).map Nat.digitChar).reverse) = ['0'] :=
      congrArg String.data h
    have hd2 : ((Nat.digits 10 n).map Nat.digitChar) = ['0'] := by
      have h3 := congrArg List.reverse hd
      simpa using h3
    rcases hlist : Nat.digits 10 n with _ | ⟨d, rest⟩
    · rw [hlist] at hd2; simp at hd2
    · rw [hlist] at hd2
      rcases rest with _ | ⟨e, r2⟩
      · simp only [List.map_cons, List.map_nil, List.cons.injEq, and_true] at hd2
        have hdlt : d < 10 :=
          Nat.digits_lt_base (by norm_num) (by rw [hlist]; exact List.mem_cons_self d [])
        have hd0 : d = 0 := by
          refine digitChar_injOn_lt d hdlt 0 (by norm_num) ?_
          rw [show Nat.digitChar 0 = '0' from rfl]
          exact hd2
        exact hn (digits_single_zero (by rw [hlist, hd0]))
      · simp at hd2

/-- JS decimal printing of naturals is injective. -/
theorem natToDec_inj {m n : Nat} (h : natToDec m = natToDec n) : m = n := by
  by_cases hm : m = 0
  · rw [hm] at h ⊢
    exact (natToDec_eq_zero_str (h.symm.trans (by rw [natToDec]; rfl))).symm
  · by_cases hn : n = 0
    · rw [hn] at h ⊢
      exact natToDec_eq_zero_str (h.trans (by rw [natToDec]; rfl))
    · rw [natToDec, natToDec, if_neg hm, if_neg hn] at h
      injection h with hdata
      have hrev := List.reverse_injective hdata
      have hdig := map_digitChar_inj _ _
        (fun x hx => Nat.digits_lt_base (by norm_num) hx)
        (fun x hx => Nat.digits_lt_base (by norm_num) hx) hrev
      have h1 := Nat.ofDigits_digits 10 m
      have h2 := Nat.ofDigits_digits 10 n
      rw [← h1, ← h2, hdig]

/-- Distinct clocks give distinct transaction ids. -/
theorem txnId_inj {t1 t2 : Nat}
    (h : "TXN_" ++ natToDec t1 = "TXN_" ++ natToDec t2) : t1 = t2 := by
  have h2 := congrArg String.data h
  simp only [String.data_append] at h2
  exact natToDec_inj (String.ext (List.append_cancel_left h2))

/-! ### Claim theorems -/

/-- Claim C7: verifying a plaintext against its own bcrypt hash succeeds,
and verifying any distinct plaintext against that hash fails, for every
choice of per-call salts. -/
theorem bcrypt_verify_roundtrip (p q : String) (s1 s2 : Nat) (hpq : p ≠ q) :
    bcryptCompare p (bcryptHash p s1) = true ∧
    bcryptCompare q (bcryptHash p s2) = false := by
  refine ⟨by simp [bcryptCompare, bcryptHash], ?_⟩
  simp only [bcryptCompare, bcryptHash]
  exact beq_eq_false_iff_ne.mpr (Ne.symm hpq)

/-- Concrete instantiation of `bcrypt_verify_roundtrip`. -/
theorem bcrypt_verify_roundtrip_witness :
    bcryptCompare "pw" (bcryptHash "pw" 3) = true ∧
    bcryptCompare "other" (bcryptHash "pw" 7) = false :=
  bcrypt_verify_roundtrip "pw" "other" 3 7 (by decide)

/-- Claim C3: a token issued by `generateToken` verifies to the same user
id at issuance time, and fails with `expired` at every clock strictly more
than one hour (3600 seconds) past issuance. -/
theorem token_roundtrip_and_expiry (id now later : Nat) (secret : String)
    (hl : now + 3600 < later) :
    jwtVerifyTok (generateToken id secret now) secret now = .ok id ∧
    jwtVerifyTok (generateToken id secret now) secret later = .error .expired := by
  constructor
  · simp [jwtVerifyTok, generateToken, jwtSign]
  · simp only [jwtVerifyTok, generateToken, jwtSign, beq_self_eq_true, if_true]
    rw [if_neg (by omega)]

/-- Concrete instantiation of `token_roundtrip_and_expiry`. -/
theorem token_roundtrip_and_expiry_witness :
    jwtVerifyTok (generateToken 1 "sec" 0) "sec" 0 = .ok 1 ∧
    jwtVerifyTok (generateToken 1 "sec" 0) "sec" 3601 = .error .expired :=
  token_roundtrip_and_expiry 1 0 3601 "sec" (by omega)

/-- Claim C10: on an Authorization header that is exactly `"Bearer"` (no
token segment), `protect` takes the catch branch (401 "token failed") and
then, since `token` is still undefined, the trailing check sends a second
401 "no token": two responses, handler never run, no user attached. -/
theorem protect_bare_bearer_double_response (secret : String) (now : Nat) :
    protect (some "Bearer") secret now =
      ⟨[⟨401, .msg "Not authorized, token failed"⟩,
        ⟨401, .msg "Not authorized, no token"⟩], false, none⟩ := rfl

/-- Claim C2 (defect exhibit): at the header `"Bearer"` the Auth Gate
produces two terminal responses, not exactly one. -/
theorem auth_gate_not_single_response (secret : String) (now : Nat) :
    (protect (some "Bearer") secret now).responses.length = 2 ∧
    (protect (some "Bearer") secret now).responses.length ≠ 1 :=
  ⟨rfl, by exact (by decide : (2 : Nat) ≠ 1)⟩

/-- Claim C4: a login with an existing email but a failing password
comparison and a login with an email that matches no user produce the
same 401 response body, byte for byte. -/
theorem login_no_account_enumeration (s : Store) (e1 p1 e2 p2 : String)
    (now1 now2 : Nat) (secret : String) (u : StoredUser)
    (h1 : findOneByEmail s e1 = some u)
    (h2 : bcryptCompare p1 u.password = false)
    (h3 : findOneByEmail s e2 = none) :
    loginUser s e1 p1 now1 secret = ⟨401, .msg "Invalid email or password"⟩ ∧
    loginUser s e2 p2 now2 secret = ⟨401, .msg "Invalid email or password"⟩ ∧
    loginUser s e1 p1 now1 secret = loginUser s e2 p2 now2 secret := by
  refine ⟨?_, ?_, ?_⟩ <;> simp [loginUser, h1, h2, h3]

/-- Concrete instantiation of `login_no_account_enumeration`. -/
theorem login_no_account_enumeration_witness :
    loginUser store1 "alice@x.com" "wrong" 5 "sec" =
      ⟨401, .msg "Invalid email or password"⟩ ∧
    loginUser store1 "nobody@x.com" "pw" 6 "sec" =
      ⟨401, .msg "Invalid email or password"⟩ ∧
    loginUser store1 "alice@x.com" "wrong" 5 "sec" =
      loginUser store1 "nobody@x.com" "pw" 6 "sec" :=
  login_no_account_enumeration store1 "alice@x.com" "wrong" "nobody@x.com" "pw"
    5 6 "sec" alice (by decide) (by decide) (by decide)

/-- Claim C8: a payment request missing any of the five required fields
gets a 400 with the store untouched; the handler never writes the store on
any input; and a complete request gets a 200 payload echoing the amount,
whose transaction id differs between any two calls at distinct
milliseconds (in particular calls one millisecond apart). -/
theorem payment_validation_and_unique_ids (b : PaymentBody) (t1 t2 : Nat)
    (s s1 s2 : Store) (ht : t1 ≠ t2) :
    ((b.cardNumber = none ∨ b.expiryDate = none ∨ b.cvv = none ∨
        b.cardHolderName = none ∨ b.amount = none) →
      processPayment b t1 s = (⟨400, .msg "Missing payment details."⟩, s)) ∧
    (processPayment b t1 s).2 = s ∧
    (truthyS b.cardNumber = true → truthyS b.expiryDate = true →
      truthyS b.cvv = true → truthyS b.cardHolderName = true →
      truthyS b.amount = true →
      (processPayment b t1 s1).1 =
        ⟨200, .payment "Payment processed successfully!" ("TXN_" ++ natToDec t1)
          (b.amount.getD "") "completed"⟩ ∧
      (processPayment b t1 s1).1 ≠ (processPayment b t2 s2).1) := by
  refine ⟨?_, ?_, ?_⟩
  · rintro (h | h | h | h | h) <;> simp [processPayment, h, truthyS]
  · unfold processPayment
    split <;> rfl
  · intro h1 h2 h3 h4 h5
    refine ⟨by simp [processPayment, h1, h2, h3, h4, h5], ?_⟩
    simp only [processPayment, h1, h2, h3, h4, h5, Bool.and_self, Bool.not_true,
      Bool.false_eq_true, if_false, Bool.and_true, Bool.true_and]
    intro heq
    have hbody := congrArg Resp.body heq
    simp only [RespBody.payment.injEq, true_and, and_true] at hbody
    exact ht (txnId_inj hbody)

/-- Concrete instantiation of `payment_validation_and_unique_ids`. -/
theorem payment_validation_and_unique_ids_witness :
    processPayment ⟨none, some "12/26", some "123", some "Jo", some "50"⟩ 100 store1 =
      (⟨400, .msg "Missing payment details."⟩, store1) ∧
    (processPayment payBody 100 store1).2 = store1 ∧
    ((processPayment payBody 100 store1).1 =
      ⟨200, .payment "Payment processed successfully!" ("TXN_" ++ natToDec 100)
        "50" "completed"⟩ ∧
     (processPayment payBody 100 store1).1 ≠ (processPayment payBody 101 store1).1) := by
  have hA := payment_validation_and_unique_ids
    ⟨none, some "12/26", some "123", some "Jo", some "50"⟩ 100 101
    store1 store1 store1 (by decide)
  have hB := payment_validation_and_unique_ids payBody 100 101
    store1 store1 store1 (by decide)
  exact ⟨hA.1 (Or.inl rfl), hB.2.1, hB.2.2 rfl rfl rfl rfl rfl⟩

/-! ### Profile-update helper lemmas -/

/-- The saved document keeps the id it was loaded with. -/
theorem updatedUser_id (u : StoredUser) (b : UpdateBody) (salt : Nat) :
    (updatedUser u b salt).id = u.id := by
  unfold updatedUser applyProfileFields
  split <;> rfl

/-- Replacing the documents with id `uid` by `u2` (itself carrying id
`uid`) commutes with lookup by id. -/
theorem find?_id_map_replace (s : Store) (uid : Nat) (u2 : StoredUser)
    (h : u2.id = uid) :
    (s.map (fun v => if v.id == uid then u2 else v)).find? (fun v => v.id == uid) =
      (s.find? (fun v => v.id == uid)).map
        (fun v => if v.id == uid then u2 else v) := by
  induction s with
  | nil => rfl
  | cons a t ih =>
    simp only [List.map_cons]
    by_cases ha : (a.id == uid) = true
    · have hu2b : (u2.id == uid) = true := beq_iff_eq.mpr h
      rw [if_pos ha]
      simp [List.find?, ha, hu2b, beq_iff_eq.mp ha]
    · have haf : (a.id == uid) = false := by simpa using ha
      rw [if_neg ha]
      simp only [List.find?, haf]
      exact ih

/-- After `updateUserProfile`, the account is still found under its id and
every field whose request value was falsy kept its prior stored value:
whether the save succeeded (the replaced document retains those fields) or
failed (the store is untouched). -/
theorem updateUserProfile_find (s : Store) (uid : Nat) (b : UpdateBody)
    (salt now : Nat) (secret : String) (u : StoredUser)
    (hfind : findById s uid = some u) :
    ∃ w, findById (updateUserProfile s uid b salt now secret).2 uid = some w ∧
      (truthyS b.username = false → w.username = u.username) ∧
      (truthyS b.email = false → w.email = u.email) ∧
      (truthyS b.firstName = false → w.firstName = u.firstName) ∧
      (truthyS b.lastName = false → w.lastName = u.lastName) ∧
      (truthyS b.phoneNumber = false → w.phoneNumber = u.phoneNumber) ∧
      (truthyS b.password = false → w.password = u.password) := by
  have huid : u.id = uid := by
    have h2 := List.find?_some hfind
    simpa using h2
  cases hsv : saveUser s (updatedUser u b salt) with
  | error m =>
    refine ⟨u, ?_, fun _ => rfl, fun _ => rfl, fun _ => rfl, fun _ => rfl,
      fun _ => rfl, fun _ => rfl⟩
    simp only [updateUserProfile, hfind, hsv]
  | ok s2 =>
    have hu2 : (updatedUser u b salt).id = uid := (updatedUser_id u b salt).trans huid
    have hs2 : s2 = s.map (fun v => if v.id == uid then updatedUser u b salt else v) := by
      unfold saveUser at hsv
      split at hsv
      · cases hsv
      · rw [hu2] at hsv
        exact (Except.ok.inj hsv).symm
    refine ⟨updatedUser u b salt, ?_, ?_, ?_, ?_, ?_, ?_, ?_⟩
    · simp only [updateUserProfile, hfind, hsv]
      rw [hs2]
      unfold findById
      rw [find?_id_map_replace s uid (updatedUser u b salt) hu2]
      unfold findById at hfind
      rw [hfind]
      simp [huid]
    · intro h; unfold updatedUser applyProfileFields; split <;> simp_all
    · intro h; unfold updatedUser applyProfileFields; split <;> simp_all
    · intro h; unfold updatedUser applyProfileFields; split <;> simp_all
    · intro h; unfold updatedUser applyProfileFields; split <;> simp_all
    · intro h; unfold updatedUser applyProfileFields; split <;> simp_all
    · intro h; unfold updatedUser applyProfileFields; split <;> simp_all

/-- Claim C5: a profile field absent from the request body keeps its prior
stored value after the update; only fields present in the request are
replaced. -/
theorem profile_update_frame (s : Store) (uid : Nat) (b : UpdateBody)
    (salt now : Nat) (secret : String) (u : StoredUser)
    (hfind : findById s uid = some u) :
    ∃ w, findById (updateUserProfile s uid b salt now secret).2 uid = some w ∧
      (b.username = none → w.username = u.username) ∧
      (b.email = none → w.email = u.email) ∧
      (b.firstName = none → w.firstName = u.firstName) ∧
      (b.lastName = none → w.lastName = u.lastName) ∧
      (b.phoneNumber = none → w.phoneNumber = u.phoneNumber) ∧
      (b.password = none → w.password = u.password) := by
  obtain ⟨w, hw, h1, h2, h3, h4, h5, h6⟩ :=
    updateUserProfile_find s uid b salt now secret u hfind
  exact ⟨w, hw, fun h => h1 (by rw [h]; rfl), fun h => h2 (by rw [h]; rfl),
    fun h => h3 (by rw [h]; rfl), fun h => h4 (by rw [h]; rfl),
    fun h => h5 (by rw [h]; rfl), fun h => h6 (by rw [h]; rfl)⟩

/-- Concrete instantiation of `profile_update_frame`: an update carrying
only `firstName` leaves the other five fields as they were. -/
theorem profile_update_frame_witness :
    ∃ w, findById (updateUserProfile store1 1
        ⟨none, none, some "F", none, none, none⟩ 4 9 "sec").2 1 = some w ∧
      w.username = alice.username ∧ w.email = alice.email ∧
      w.lastName = alice.lastName ∧ w.phoneNumber = alice.phoneNumber ∧
      w.password = alice.password := by
  obtain ⟨w, hw, h1, h2, _, h4, h5, h6⟩ :=
    profile_update_frame store1 1 ⟨none, none, some "F", none, none, none⟩
      4 9 "sec" alice (by decide)
  exact ⟨w, hw, h1 rfl, h2 rfl, h4 rfl, h5 rfl, h6 rfl⟩

/-! ### Empty-string request fields (claim C9) -/

/-- Statement-level normalisation following the claim' s wording: replace
every falsy request value (`undefined` or `""`) by an absent field. -/
def scrubField (v : Option String) : Option String :=
  if truthyS v then v else none

/-- Normalise every field of an update body. -/
def scrubBody (b : UpdateBody) : UpdateBody :=
  ⟨scrubField b.username, scrubField b.email, scrubField b.firstName,
   scrubField b.lastName, scrubField b.phoneNumber, scrubField b.password⟩

/-- Scrubbing does not change truthiness. -/
theorem truthyS_scrubField (v : Option String) :
    truthyS (scrubField v) = truthyS v := by
  unfold scrubField
  cases h : truthyS v
  · simp [truthyS, h]
  · simp [h]

/-- A truthy value survives scrubbing. -/
theorem scrubField_of_truthy {v : Option String} (h : truthyS v = true) :
    scrubField v = v := by
  unfold scrubField
  rw [if_pos h]

/-- The document written by the handler is the same for a body and for its
scrubbed form. -/
theorem updatedUser_scrub (u : StoredUser) (b : UpdateBody) (salt : Nat) :
    updatedUser u (scrubBody b) salt = updatedUser u b salt := by
  have happ : applyProfileFields u (scrubBody b) = applyProfileFields u b := by
    unfold applyProfileFields scrubBody
    simp only [truthyS_scrubField]
    cases h1 : truthyS b.username <;> cases h2 : truthyS b.email <;>
      cases h3 : truthyS b.firstName <;> cases h4 : truthyS b.lastName <;>
      cases h5 : truthyS b.phoneNumber <;>
      simp [scrubField_of_truthy, h1, h2, h3, h4, h5]
  unfold updatedUser
  rw [happ]
  simp only [scrubBody, truthyS_scrubField]
  cases h6 : truthyS b.password with
  | false => rfl
  | true => rw [scrubField_of_truthy h6]

/-- Claim C9: supplying a falsy value (in particular `""`) for any profile
field behaves exactly like omitting the field: the handler's outcome
equals the outcome for the scrubbed body, and every field sent as `""`
keeps its prior stored value, so an empty-string value is never
persisted. -/
theorem empty_string_fields_ignored (s : Store) (uid : Nat) (b : UpdateBody)
    (salt now : Nat) (secret : String) :
    updateUserProfile s uid b salt now secret =
      updateUserProfile s uid (scrubBody b) salt now secret ∧
    (∀ u, findById s uid = some u →
      ∃ w, findById (updateUserProfile s uid b salt now secret).2 uid = some w ∧
        (b.username = some "" → w.username = u.username) ∧
        (b.email = some "" → w.email = u.email) ∧
        (b.firstName = some "" → w.firstName = u.firstName) ∧
        (b.lastName = some "" → w.lastName = u.lastName) ∧
        (b.phoneNumber = some "" → w.phoneNumber = u.phoneNumber) ∧
        (b.password = some "" → w.password = u.password)) := by
  constructor
  · cases hf : findById s uid with
    | none => simp only [updateUserProfile, hf]
    | some u => simp only [updateUserProfile, hf, updatedUser_scrub]
  · intro u hfind
    obtain ⟨w, hw, h1, h2, h3, h4, h5, h6⟩ :=
      updateUserProfile_find s uid b salt now secret u hfind
    exact ⟨w, hw, fun h => h1 (by rw [h]; rfl), fun h => h2 (by rw [h]; rfl),
      fun h => h3 (by rw [h]; rfl), fun h => h4 (by rw [h]; rfl),
      fun h => h5 (by rw [h]; rfl), fun h => h6 (by rw [h]; rfl)⟩

/-- Concrete instantiation of `empty_string_fields_ignored`: a body of six
empty strings acts like an empty body and persists nothing. -/
theorem empty_string_fields_ignored_witness :
    updateUserProfile store1 1 ⟨some "", some "", some "", some "", some "", some ""⟩
        4 9 "sec" =
      updateUserProfile store1 1
        (scrubBody ⟨some "", some "", some "", some "", some "", some ""⟩) 4 9 "sec" ∧
    ∃ w, findById (updateUserProfile store1 1
        ⟨some "", some "", some "", some "", some "", some ""⟩ 4 9 "sec").2 1 = some w ∧
      w.username = alice.username ∧ w.email = alice.email ∧
      w.firstName = alice.firstName ∧ w.lastName = alice.lastName ∧
      w.phoneNumber = alice.phoneNumber ∧ w.password = alice.password := by
  have h := empty_string_fields_ignored store1 1
    ⟨some "", some "", some "", some "", some "", some ""⟩ 4 9 "sec"
  refine ⟨h.1, ?_⟩
  obtain ⟨w, hw, h1, h2, h3, h4, h5, h6⟩ := h.2 alice (by decide)
  exact ⟨w, hw, h1 rfl, h2 rfl, h3 rfl, h4 rfl, h5 rfl, h6 rfl⟩

/-! ### Password update and login (claim C6) -/

/-- Looking up by email after replacing the documents with id `uid` by
`u2`: when `u2` keeps the email of the found user `u` and every holder of
that email has id `uid`, the lookup returns `u2`. -/
theorem findOneByEmail_map_replace (uid : Nat) (u u2 : StoredUser)
    (hid : u2.id = uid) (hemail : u2.email = u.email) :
    ∀ (s : Store), s.find? (fun v => v.id == uid) = some u →
      (∀ v ∈ s, v.email = u.email → v.id = uid) →
      findOneByEmail (s.map (fun v => if v.id == uid then u2 else v)) u.email = some u2
  | [], hfind, _ => by cases hfind
  | a :: t, hfind, honly => by
    simp only [List.map_cons]
    unfold findOneByEmail
    by_cases ha : (a.id == uid) = true
    · rw [if_pos ha]
      have hu2e : (u2.email == u.email) = true := beq_iff_eq.mpr hemail
      simp [List.find?, hu2e]
    · have hae : (a.email == u.email) = false := by
        refine beq_eq_false_iff_ne.mpr (fun he => ?_)
        exact ha (beq_iff_eq.mpr (honly a (List.mem_cons_self a t) he))
      rw [if_neg ha]
      simp only [List.find?, hae]
      have hfind2 : t.find? (fun v => v.id == uid) = some u := by
        rw [List.find?_cons_of_neg t ha] at hfind
        exact hfind
      have honly2 : ∀ v ∈ t, v.email = u.email → v.id = uid :=
        fun v hv he => honly v (List.mem_cons_of_mem a hv) he
      have hrec := findOneByEmail_map_replace uid u u2 hid hemail t hfind2 honly2
      unfold findOneByEmail at hrec
      exact hrec

/-- When no other document shares a unique field with the write,
`user.save()` succeeds and replaces the document in place. -/
theorem saveUser_ok_of_unique (s : Store) (u2 : StoredUser)
    (h : ∀ v ∈ s, v.id ≠ u2.id → v.email ≠ u2.email ∧ v.username ≠ u2.username) :
    saveUser s u2 = .ok (s.map (fun v => if v.id == u2.id then u2 else v)) := by
  have hany : (s.any fun v =>
      !(v.id == u2.id) && (v.email == u2.email || v.username == u2.username)) = false := by
    rw [List.any_eq_false]
    intro v hv
    by_cases hvid : v.id = u2.id
    · simp [hvid]
    · have h1 := (h v hv hvid).1
      have h2 := (h v hv hvid).2
      simp [h1, h2]
  unfold saveUser
  rw [hany]
  simp

/-- Claim C6: a truthy password in the update body is re-hashed before
persistence, so a later login succeeds with the new password and fails
with the old one; an update whose password field is falsy leaves the
stored digest untouched (no re-hash). -/
theorem password_update_rehash (s : Store) (uid salt now now2 now3 : Nat)
    (secret : String) (u : StoredUser) (newP oldP : String)
    (fn ln ph : Option String)
    (hfind : findById s uid = some u)
    (hnew : newP ≠ "")
    (hold : oldP ≠ newP)
    (huniq : ∀ v ∈ s, v.id ≠ uid → v.email ≠ u.email ∧ v.username ≠ u.username) :
    (loginUser (updateUserProfile s uid ⟨none, none, fn, ln, ph, some newP⟩
        salt now secret).2 u.email newP now2 secret).status = 200 ∧
    (loginUser (updateUserProfile s uid ⟨none, none, fn, ln, ph, some newP⟩
        salt now secret).2 u.email oldP now3 secret).status = 401 ∧
    (∀ b2 : UpdateBody, truthyS b2.password = false →
      ∃ w, findById (updateUserProfile s uid b2 salt now secret).2 uid = some w ∧
        w.password = u.password) := by
  have huid : u.id = uid := by
    have h2 := List.find?_some hfind
    simpa using h2
  have hu2pw : (updatedUser u ⟨none, none, fn, ln, ph, some newP⟩ salt).password =
      bcryptHash newP salt := by
    simp [updatedUser, truthyS, hnew]
  have hu2em : (updatedUser u ⟨none, none, fn, ln, ph, some newP⟩ salt).email =
      u.email := by
    simp [updatedUser, applyProfileFields, truthyS, hnew]
  have hu2un : (updatedUser u ⟨none, none, fn, ln, ph, some newP⟩ salt).username =
      u.username := by
    simp [updatedUser, applyProfileFields, truthyS, hnew]
  have hu2id : (updatedUser u ⟨none, none, fn, ln, ph, some newP⟩ salt).id = uid :=
    (updatedUser_id u ⟨none, none, fn, ln, ph, some newP⟩ salt).trans huid
  have huniq2 : ∀ v ∈ s,
      v.id ≠ (updatedUser u ⟨none, none, fn, ln, ph, some newP⟩ salt).id →
      v.email ≠ (updatedUser u ⟨none, none, fn, ln, ph, some newP⟩ salt).email ∧
      v.username ≠ (updatedUser u ⟨none, none, fn, ln, ph, some newP⟩ salt).username := by
    intro v hv hne
    rw [hu2id] at hne
    rw [hu2em, hu2un]
    exact huniq v hv hne
  have hupd : (updateUserProfile s uid ⟨none, none, fn, ln, ph, some newP⟩
      salt now secret).2 =
      s.map (fun v =>
        if v.id == (updatedUser u ⟨none, none, fn, ln, ph, some newP⟩ salt).id
        then updatedUser u ⟨none, none, fn, ln, ph, some newP⟩ salt else v) := by
    simp only [updateUserProfile, hfind,
      saveUser_ok_of_unique s (updatedUser u ⟨none, none, fn, ln, ph, some newP⟩ salt) huniq2]
  have honly : ∀ v ∈ s, v.email = u.email → v.id = uid := by
    intro v hv he
    by_contra hne
    exact (huniq v hv hne).1 he
  have hlookup : findOneByEmail ((updateUserProfile s uid
      ⟨none, none, fn, ln, ph, some newP⟩ salt now secret).2) u.email =
      some (updatedUser u ⟨none, none, fn, ln, ph, some newP⟩ salt) := by
    rw [hupd]
    simp only [hu2id]
    exact findOneByEmail_map_replace uid u
      (updatedUser u ⟨none, none, fn, ln, ph, some newP⟩ salt) hu2id hu2em s hfind honly
  refine ⟨?_, ?_, ?_⟩
  · simp [loginUser, hlookup, hu2pw, bcryptCompare, bcryptHash]
  · have hbad : (oldP == newP) = false := beq_eq_false_iff_ne.mpr hold
    simp [loginUser, hlookup, hu2pw, bcryptCompare, bcryptHash, hbad]
  · intro b2 hb2
    obtain ⟨w, hw, _, _, _, _, _, h6⟩ :=
      updateUserProfile_find s uid b2 salt now secret u hfind
    exact ⟨w, hw, h6 hb2⟩

/-- Concrete instantiation of `password_update_rehash`. -/
theorem password_update_rehash_witness :
    (loginUser (updateUserProfile store1 1 ⟨none, none, none, none, none, some "newpw"⟩
        4 9 "sec").2 alice.email "newpw" 10 "sec").status = 200 ∧
    (loginUser (updateUserProfile store1 1 ⟨none, none, none, none, none, some "newpw"⟩
        4 9 "sec").2 alice.email "pw" 11 "sec").status = 401 ∧
    ∃ w, findById (updateUserProfile store1 1 ⟨none, none, some "F", none, none, none⟩
        4 9 "sec").2 1 = some w ∧ w.password = alice.password := by
  have h := password_update_rehash store1 1 4 9 10 11 "sec" alice "newpw" "pw"
    none none none (by decide) (by decide) (by decide) (by decide)
  exact ⟨h.1, h.2.1, h.2.2 ⟨none, none, some "F", none, none, none⟩ rfl⟩

/-! ### Registration (claim C1) -/

/-- Searching an appended list when the first part has no match. -/
theorem find?_append_none {α : Type} (p : α → Bool) :
    ∀ (l1 l2 : List α), l1.find? p = none → (l1 ++ l2).find? p = l2.find? p
  | [], _, _ => rfl
  | a :: t, l2, h => by
    have hpa : p a = false := by
      by_cases hp : p a = true
      · rw [List.find?_cons_of_pos t hp] at h
        cases h
      · simpa using hp
    have ht : t.find? p = none := by
      rw [List.find?_cons_of_neg t (by simp [hpa])] at h
      exact h
    simp only [List.cons_append, List.find?, hpa]
    exact find?_append_none p t l2 ht

/-- Claim C1 (counterexample): registering a taken username under a fresh
email is answered with 500 (the duplicate-key error from the unique index
reaches the catch-all), not with the 400 the claim requires; no new user
is stored. -/
theorem register_dup_username_cex :
    (registerUser store1 "alice" "b@x.com" "pw2" 2 0 0 "sec").1.status = 500 ∧
    (registerUser store1 "alice" "b@x.com" "pw2" 2 0 0 "sec").1.status ≠ 400 ∧
    (registerUser store1 "alice" "b@x.com" "pw2" 2 0 0 "sec").2 = store1 := by
  decide

/-- Claim C1 (amended): a registration whose email is already stored gets
400 "User already exists" and leaves the store unchanged; a registration
with a fresh email but a taken username (and nonempty fields) gets 500 and
leaves the store unchanged; two registrations with nonempty fields whose
emails and usernames are fresh and mutually distinct both get 201, each
carrying a freshly issued token, and the two tokens differ. -/
theorem register_duplicates_and_success (s : Store)
    (un1 em1 pw1 un2 em2 pw2 : String)
    (id1 id2 salt1 salt2 now1 now2 : Nat) (secret : String) :
    ((∃ u, findOneByEmail s em1 = some u) →
      registerUser s un1 em1 pw1 id1 salt1 now1 secret =
        (⟨400, .msg "User already exists"⟩, s)) ∧
    (findOneByEmail s em1 = none → un1 ≠ "" → em1 ≠ "" → pw1 ≠ "" →
      (∃ v ∈ s, v.username = un1) →
      (registerUser s un1 em1 pw1 id1 salt1 now1 secret).1.status = 500 ∧
      (registerUser s un1 em1 pw1 id1 salt1 now1 secret).2 = s) ∧
    ((∀ v ∈ s, v.email ≠ em1 ∧ v.username ≠ un1 ∧ v.email ≠ em2 ∧ v.username ≠ un2) →
      em1 ≠ em2 → un1 ≠ un2 →
      un1 ≠ "" → em1 ≠ "" → pw1 ≠ "" → un2 ≠ "" → em2 ≠ "" → pw2 ≠ "" →
      id1 ≠ id2 →
      (registerUser s un1 em1 pw1 id1 salt1 now1 secret).1 =
        ⟨201, .userTok id1 un1 em1 (generateToken id1 secret now1)⟩ ∧
      (registerUser (registerUser s un1 em1 pw1 id1 salt1 now1 secret).2
          un2 em2 pw2 id2 salt2 now2 secret).1 =
        ⟨201, .userTok id2 un2 em2 (generateToken id2 secret now2)⟩ ∧
      generateToken id1 secret now1 ≠ generateToken id2 secret now2) := by
  refine ⟨?_, ?_, ?_⟩
  · rintro ⟨u, hu⟩
    simp only [registerUser, hu]
  · intro hnone hun hem hpw hex
    have hval : (un1 == "" || em1 == "" || pw1 == "") = false := by
      simp [hun, hem, hpw]
    have hany : (s.any fun w => w.email == em1 || w.username == un1) = true := by
      rw [List.any_eq_true]
      obtain ⟨v, hv, hvu⟩ := hex
      exact ⟨v, hv, by simp [hvu]⟩
    have hc : createUser s un1 em1 pw1 id1 salt1 = .error "E11000 duplicate key error" := by
      unfold createUser
      rw [hval, hany]
      simp
    constructor <;> simp only [registerUser, hnone, hc]
  · intro hfresh hee huu hun1 hem1 hpw1 hun2 hem2 hpw2 hid
    have hval1 : (un1 == "" || em1 == "" || pw1 == "") = false := by
      simp [hun1, hem1, hpw1]
    have hval2 : (un2 == "" || em2 == "" || pw2 == "") = false := by
      simp [hun2, hem2, hpw2]
    have hnone1 : findOneByEmail s em1 = none := by
      unfold findOneByEmail
      rw [List.find?_eq_none]
      intro v hv
      simp [(hfresh v hv).1]
    have hany1 : (s.any fun w => w.email == em1 || w.username == un1) = false := by
      rw [List.any_eq_false]
      intro v hv
      simp [(hfresh v hv).1, (hfresh v hv).2.1]
    have hc1 : createUser s un1 em1 pw1 id1 salt1 =
        .ok (⟨id1, un1, em1, bcryptHash pw1 salt1, none, none, none⟩,
          s ++ [⟨id1, un1, em1, bcryptHash pw1 salt1, none, none, none⟩]) := by
      unfold createUser
      rw [hval1, hany1]
      simp
    have hr1 : registerUser s un1 em1 pw1 id1 salt1 now1 secret =
        (⟨201, .userTok id1 un1 em1 (generateToken id1 secret now1)⟩,
          s ++ [⟨id1, un1, em1, bcryptHash pw1 salt1, none, none, none⟩]) := by
      simp only [registerUser, hnone1, hc1]
    have hnone2 : findOneByEmail
        (s ++ [⟨id1, un1, em1, bcryptHash pw1 salt1, none, none, none⟩]) em2 = none := by
      unfold findOneByEmail
      rw [List.find?_eq_none]
      intro v hv
      rcases List.mem_append.mp hv with h | h
      · simp [(hfresh v h).2.2.1]
      · rw [List.mem_singleton.mp h]
        simp [hee]
    have hany2 : ((s ++ [(⟨id1, un1, em1, bcryptHash pw1 salt1, none, none, none⟩ :
        StoredUser)]).any fun w => w.email == em2 || w.username == un2) = false := by
      rw [List.any_eq_false]
      intro v hv
      rcases List.mem_append.mp hv with h | h
      · simp [(hfresh v h).2.2.1, (hfresh v h).2.2.2]
      · rw [List.mem_singleton.mp h]
        simp [hee, huu]
    have hc2 : createUser
        (s ++ [⟨id1, un1, em1, bcryptHash pw1 salt1, none, none, none⟩])
        un2 em2 pw2 id2 salt2 =
        .ok (⟨id2, un2, em2, bcryptHash pw2 salt2, none, none, none⟩,
          (s ++ [⟨id1, un1, em1, bcryptHash pw1 salt1, none, none, none⟩]) ++
            [⟨id2, un2, em2, bcryptHash pw2 salt2, none, none, none⟩]) := by
      unfold createUser
      rw [hval2, hany2]
      simp
    have htok : generateToken id1 secret now1 ≠ generateToken id2 secret now2 := by
      simp only [generateToken, jwtSign, ne_eq, Token.mk.injEq, not_and]
      intro h
      exact absurd h hid
    refine ⟨by rw [hr1], ?_, htok⟩
    rw [hr1]
    simp only [registerUser, hnone2, hc2]

/-- Concrete instantiation of `register_duplicates_and_success`: all three
branches at a one-user store. -/
theorem register_duplicates_and_success_witness :
    registerUser store1 "bob" "alice@x.com" "pw9" 2 0 7 "sec" =
      (⟨400, .msg "User already exists"⟩, store1) ∧
    ((registerUser store1 "alice" "b@x.com" "pw9" 2 0 7 "sec").1.status = 500 ∧
     (registerUser store1 "alice" "b@x.com" "pw9" 2 0 7 "sec").2 = store1) ∧
    ((registerUser store1 "bob" "b@x.com" "pwB" 2 5 7 "sec").1 =
       ⟨201, .userTok 2 "bob" "b@x.com" (generateToken 2 "sec" 7)⟩ ∧
     (registerUser (registerUser store1 "bob" "b@x.com" "pwB" 2 5 7 "sec").2
        "carol" "c@x.com" "pwC" 3 6 8 "sec").1 =
       ⟨201, .userTok 3 "carol" "c@x.com" (generateToken 3 "sec" 8)⟩ ∧
     generateToken 2 "sec" 7 ≠ generateToken 3 "sec" 8) := by
  have hA := register_duplicates_and_success store1 "bob" "alice@x.com" "pw9"
    "x" "y" "z" 2 3 0 0 7 8 "sec"
  have hB := register_duplicates_and_success store1 "alice" "b@x.com" "pw9"
    "x" "y" "z" 2 3 0 0 7 8 "sec"
  have hC := register_duplicates_and_success store1 "bob" "b@x.com" "pwB"
    "carol" "c@x.com" "pwC" 2 3 5 6 7 8 "sec"
  refine ⟨hA.1 ⟨alice, by decide⟩, hB.2.1 (by decide) (by decide) (by decide)
    (by decide) ⟨alice, by decide, rfl⟩, ?_⟩
  exact hC.2.2 (by decide) (by decide) (by decide) (by decide) (by decide)
    (by decide) (by decide) (by decide) (by decide) (by decide)

end PMS
